import Mathlib

/-
Shallow embedding of the `common` package of portainer-stack-utils.

Go conventions modelled explicitly:
- a Go `error` value is `GoErr`: the package's own `Error` string constants
  are `GoErr.app`, and opaque errors coming from the API client / transport
  are `GoErr.transport` (identified by an arbitrary number);
- a Go function returning `(T, error)` is modelled as `GoResult T`: the
  `ret` constructor carries both components of the pair (so a naked `return`
  that leaves a previously assigned `err` live is representable), and
  `GoResult.panic` models a runtime panic (failed type assertion, index out
  of range) aborting the call;
- a decoded `map[string]interface{}` is `List (String × Json)`; Go map
  indexing yields the zero value (`nil` interface) for a missing key, and a
  decoded JSON `null` is also the `nil` interface, so `goIndex` conflates
  the two into `Json.null` exactly as the running Go program does;
- the API client is a `Client` record holding the outcome of each remote
  call the package makes; `GetClient` is an `Except GoErr Client` argument.
-/

namespace common

/-- A Go error value: `app` is the package's `Error` string type, `transport`
is any other error produced by the API client or HTTP layer. -/
inductive GoErr where
  | app (msg : String)
  | transport (id : Nat)
deriving DecidableEq

def ErrStackNotFound : GoErr := .app "Stack not found"

def ErrStackClusterNotFound : GoErr := .app "Stack cluster not found"

def ErrEndpointNotFound : GoErr := .app "Endpoint not found"

def ErrEndpointGroupNotFound : GoErr := .app "Endpoint group not found"

def ErrSeveralEndpointsAvailable : GoErr := .app "Several endpoints available"

def ErrNoEndpointsAvailable : GoErr := .app "No endpoints available"

def ErrUserNotFound : GoErr := .app "User not found"

def ErrAccessControlNotFound : GoErr := .app "Access control not found"

def valueNotFoundError : GoErr := .app "Value not found"

/-- An untyped JSON value as decoded by Go into `interface{}`. -/
inductive Json where
  | null
  | bool (b : Bool)
  | num (n : Int)
  | str (s : String)
  | arr (elems : List Json)
  | obj (fields : List (String × Json))

/-- `value == nil` on a decoded `interface{}`. -/
def Json.isNull : Json → Bool
  | .null => true
  | _ => false

/-- Whether a decoded value is a `map[string]interface{}` (the type the
assertion in `selectValue` tests against). -/
def Json.isObj : Json → Bool
  | .obj _ => true
  | _ => false

/-- Go map indexing `jsonMap[k]`: the `nil` interface (here `Json.null`) when
the key is missing, conflated with a present key decoded from JSON `null`. -/
def goIndex (m : List (String × Json)) (k : String) : Json :=
  (m.lookup k).getD .null

/-- Result of `selectValue`, a Go `(interface{}, error)` pair plus the
possibility of a runtime panic from the unchecked type assertion or from
indexing `jsonPath[0]` of an empty path. -/
inductive SelectResult where
  | ok (v : Json)
  | err (e : GoErr)
  | panic

/-- Whether a `selectValue` outcome is an error return (as opposed to a
successful return or a panic). -/
def SelectResult.isErr : SelectResult → Bool
  | .err _ => true
  | _ => false

/-- `selectValue` (part_001 lines 182–191): walks `jsonPath` through nested
maps.  `jsonPath[0]` on an empty path panics; `value == nil` (missing key or
JSON null) returns `valueNotFoundError`; with more path left, the unchecked
assertion `value.(map[string]interface{})` panics on a non-map value. -/
def selectValue : List (String × Json) → List String → SelectResult
  | _, [] => .panic
  | jsonMap, k :: rest =>
    let value := goIndex jsonMap k
    if value.isNull then .err valueNotFoundError
    else
      match rest with
      | [] => .ok value
      | _ :: _ =>
        match value with
        | .obj m2 => selectValue m2 rest
        | _ => .panic

/-- Manual descent along a key path, one lookup per key: the reference
walk the specification compares `selectValue` against. -/
def manualDescend : List (String × Json) → List String → Option Json
  | _, [] => none
  | m, [k] => m.lookup k
  | m, k :: rest =>
    match m.lookup k with
    | some (.obj m2) => manualDescend m2 rest
    | _ => none

/-- Every intermediate value actually traversed along the path (every key but
the last that is reached) is itself a nested mapping. -/
def intermediatesAreMaps : List (String × Json) → List String → Bool
  | _, [] => true
  | _, [_] => true
  | m, k :: rest =>
    match m.lookup k with
    | some (.obj m2) => intermediatesAreMaps m2 rest
    | some _ => false
    | none => true

/-- Some key along the path, at the point the walk reaches it, is absent from
its mapping. -/
def someKeyAbsent : List (String × Json) → List String → Bool
  | _, [] => false
  | m, [k] => (m.lookup k).isNone
  | m, k :: rest =>
    match m.lookup k with
    | none => true
    | some (.obj m2) => someKeyAbsent m2 rest
    | some _ => false

/-- Some key along the path is absent from its mapping or bound to JSON
`null` — the condition Go's `value == nil` test actually detects. -/
def someKeyAbsentOrNull : List (String × Json) → List String → Bool
  | _, [] => false
  | m, [k] => (goIndex m k).isNull
  | m, k :: rest =>
    match goIndex m k with
    | .null => true
    | .obj m2 => someKeyAbsentOrNull m2 rest
    | _ => false

/-- A Go `(T, error)` return: `ret` carries both named return values (value
and error), `panic` models a runtime panic aborting the call. -/
inductive GoResult (α : Type) where
  | ret (val : α) (err : Option GoErr)
  | panic

/-- Whether a `GoResult` is a return whose error component is set. -/
def GoResult.isErr {α : Type} : GoResult α → Bool
  | .ret _ (some _) => true
  | _ => false

/-- `portainer.Endpoint` (the fields this package reads). -/
structure Endpoint where
  ID : Nat
  Name : String
deriving DecidableEq

instance : Inhabited Endpoint := ⟨⟨0, ""⟩⟩

/-- `portainer.EndpointGroup` (the fields this package reads). -/
structure EndpointGroup where
  ID : Nat
  Name : String
deriving DecidableEq

instance : Inhabited EndpointGroup := ⟨⟨0, ""⟩⟩

/-- `portainer.Stack` (the fields this package reads). -/
structure Stack where
  ID : Nat
  Name : String
  SwarmID : String
  EndpointID : Nat
deriving DecidableEq

instance : Inhabited Stack := ⟨⟨0, "", "", 0⟩⟩

/-- `portainer.User` (the fields this package reads). -/
structure User where
  ID : Nat
  Username : String
deriving DecidableEq

instance : Inhabited User := ⟨⟨0, ""⟩⟩

/-- `portainer.ResourceControl`: the identifier plus representative
ownership/permission fields (so theorems can quantify over "every other
field's value"). -/
structure ResourceControl where
  ID : Nat
  ResourceID : String
  Public : Bool
  AdministratorsOnly : Bool
deriving DecidableEq

instance : Inhabited ResourceControl := ⟨⟨0, "", false, false⟩⟩

/-- The anonymous `Portainer struct { ResourceControl ... }` field of a
decorated Docker resource. -/
structure PortainerDecoration where
  ResourceControl : ResourceControl
deriving DecidableEq

instance : Inhabited PortainerDecoration := ⟨⟨default⟩⟩

/-- `portainerDecoratedDockerResource` (part_001 lines 303–308): a Docker
resource decorated by Portainer, nested-decoration shape. -/
structure portainerDecoratedDockerResource where
  Portainer : PortainerDecoration
deriving DecidableEq

instance : Inhabited portainerDecoratedDockerResource := ⟨⟨default⟩⟩

/-- `decoratedStack` (part_001 lines 320–325): a `portainer.Stack` decorated
with an embedded `ResourceControl` field. -/
structure decoratedStack where
  toStack : Stack
  ResourceControl : ResourceControl
deriving DecidableEq

instance : Inhabited decoratedStack := ⟨⟨default, default⟩⟩

/-- `hasAccessControl` on a decorated Docker resource (lines 312–318):
the nested ResourceControl's ID field different from 0. -/
def portainerDecoratedDockerResource.hasAccessControl
    (ddr : portainerDecoratedDockerResource) : Bool :=
  ddr.Portainer.ResourceControl.ID != 0

/-- `hasAccessControl` on a decorated stack (lines 328–333): the embedded
ResourceControl's ID field different from 0. -/
def decoratedStack.hasAccessControl (ds : decoratedStack) : Bool :=
  ds.ResourceControl.ID != 0

/-- Outcome of one API-client call: the Go pair (decoded value, error). -/
abbrev GoPair (α : Type) := α × Option GoErr

/-- The API client: one field per remote call the package makes, holding the
call's outcome.  `DockerResourceGet` and `StackGet` are the two
`DoJSONWithToken` GETs (for `endpoints/{id}/docker/{type}s/{rid}` and
`stacks/{id}`), keyed by the arguments interpolated into the path. -/
structure Client where
  EndpointList : GoPair (List Endpoint)
  EndpointGroupList : GoPair (List EndpointGroup)
  StackList : String → Nat → GoPair (List Stack)
  UserList : GoPair (List User)
  EndpointDockerInfo : Nat → GoPair (List (String × Json))
  DockerResourceGet : Nat → String → String → GoPair portainerDecoratedDockerResource
  StackGet : Nat → GoPair decoratedStack

/-- `GetDefaultEndpoint` (lines 39–61): errors for zero or several
endpoints, returns the single endpoint otherwise. -/
def GetDefaultEndpoint (gc : Except GoErr Client) : GoResult Endpoint :=
  match gc with
  | .error e => .ret default (some e)
  | .ok c =>
    match c.EndpointList with
    | (_, some e) => .ret default (some e)
    | (endpoints, none) =>
      match endpoints with
      | [] => .ret default (some ErrNoEndpointsAvailable)
      | [ep] => .ret ep none
      | _ :: _ :: _ => .ret default (some ErrSeveralEndpointsAvailable)

/-- The scan loop of `GetStackByName` (lines 81–87). -/
def findStack : List Stack → String → GoResult Stack
  | [], _ => .ret default (some ErrStackNotFound)
  | s :: rest, name => if s.Name == name then .ret s none else findStack rest name

/-- `GetStackByName` (lines 65–88): first stack of the filtered list whose
name matches, else `ErrStackNotFound`. -/
def GetStackByName (gc : Except GoErr Client) (name : String) (swarmID : String)
    (endpointID : Nat) : GoResult Stack :=
  match gc with
  | .error e => .ret default (some e)
  | .ok c =>
    match c.StackList swarmID endpointID with
    | (_, some e) => .ret default (some e)
    | (stackList, none) => findStack stackList name

/-- The scan loop of `GetEndpointByName` (lines 103–109). -/
def findEndpoint : List Endpoint → String → GoResult Endpoint
  | [], _ => .ret default (some ErrEndpointNotFound)
  | ep :: rest, name => if ep.Name == name then .ret ep none else findEndpoint rest name

/-- `GetEndpointByName` (lines 92–110). -/
def GetEndpointByName (gc : Except GoErr Client) (name : String) : GoResult Endpoint :=
  match gc with
  | .error e => .ret default (some e)
  | .ok c =>
    match c.EndpointList with
    | (_, some e) => .ret default (some e)
    | (endpoints, none) => findEndpoint endpoints name

/-- The scan loop of `GetEndpointGroupByName` (lines 125–131). -/
def findEndpointGroup : List EndpointGroup → String → GoResult EndpointGroup
  | [], _ => .ret default (some ErrEndpointGroupNotFound)
  | g :: rest, name => if g.Name == name then .ret g none else findEndpointGroup rest name

/-- `GetEndpointGroupByName` (lines 114–132). -/
def GetEndpointGroupByName (gc : Except GoErr Client) (name : String) :
    GoResult EndpointGroup :=
  match gc with
  | .error e => .ret default (some e)
  | .ok c =>
    match c.EndpointGroupList with
    | (_, some e) => .ret default (some e)
    | (groups, none) => findEndpointGroup groups name

/-- `GetEndpointFromListByID` (lines 136–143): no fetch, scans the supplied
list by identifier. -/
def GetEndpointFromListByID : List Endpoint → Nat → GoResult Endpoint
  | [], _ => .ret default (some ErrEndpointNotFound)
  | ep :: rest, id => if ep.ID == id then .ret ep none else GetEndpointFromListByID rest id

/-- `GetEndpointFromListByName` (lines 147–154): no fetch, scans the supplied
list by name. -/
def GetEndpointFromListByName : List Endpoint → String → GoResult Endpoint
  | [], _ => .ret default (some ErrEndpointNotFound)
  | ep :: rest, name =>
    if ep.Name == name then .ret ep none else GetEndpointFromListByName rest name

/-- The scan loop of `GetUserByName` (lines 233–239); yields the first user
whose `Username` matches, if any. -/
def findUser : List User → String → Option User
  | [], _ => none
  | u :: rest, name => if u.Username == name then some u else findUser rest name

/-- `GetUserByName` (lines 222–245).  Note the source checks no error after
`UserList()`: on a match the naked `return` hands back the still-live
`UserList` error alongside the user, and on no match the `UserList` error is
overwritten by `ErrUserNotFound`. -/
def GetUserByName (gc : Except GoErr Client) (name : String) : GoResult User :=
  match gc with
  | .error e => .ret default (some e)
  | .ok c =>
    match findUser c.UserList.1 name with
    | some u => .ret u c.UserList.2
    | none => .ret default (some ErrUserNotFound)

/-- The branch chain on `selectionErr` in `GetEndpointSwarmClusterID`
(lines 170–177): success asserts `id.(string)` (panicking on a non-string
value), `valueNotFoundError` becomes `ErrStackClusterNotFound`, any other
error is assigned to `err` unchanged; a panic from `selectValue`
propagates. -/
def translateSelection : SelectResult → GoResult String
  | .ok (.str s) => .ret s none
  | .ok _ => .panic
  | .err se =>
    if se = valueNotFoundError then .ret "" (some ErrStackClusterNotFound)
    else .ret "" (some se)
  | .panic => .panic

/-- `GetEndpointSwarmClusterID` (lines 157–180). -/
def GetEndpointSwarmClusterID (gc : Except GoErr Client) (endpointID : Nat) :
    GoResult String :=
  match gc with
  | .error e => .ret "" (some e)
  | .ok c =>
    match c.EndpointDockerInfo endpointID with
    | (_, some e) => .ret "" (some e)
    | (result, none) => translateSelection (selectValue result ["Swarm", "Cluster", "ID"])

/-- `GetDockerResourcePortainerAccessControl` (lines 248–268). -/
def GetDockerResourcePortainerAccessControl (gc : Except GoErr Client)
    (endpointID : Nat) (resourceID : String) (resourceControlType : String) :
    GoResult ResourceControl :=
  match gc with
  | .error e => .ret default (some e)
  | .ok c =>
    match c.DockerResourceGet endpointID resourceControlType resourceID with
    | (_, some e) => .ret default (some e)
    | (pddr, none) =>
      if pddr.hasAccessControl then .ret pddr.Portainer.ResourceControl none
      else .ret default (some ErrAccessControlNotFound)

/-- The body of `GetStackPortainerAccessControl` from the `GetStackByName`
call on (lines 277–300), given the swarm-cluster id the first step left in
`endpointSwarmClusterID`. -/
def GetStackPortainerAccessControlAfterSwarm (gc : Except GoErr Client)
    (endpointID : Nat) (stackName : String) (endpointSwarmClusterID : String) :
    GoResult ResourceControl :=
  match GetStackByName gc stackName endpointSwarmClusterID endpointID with
  | .panic => .panic
  | .ret _ (some e) => .ret default (some e)
  | .ret stack none =>
    match gc with
    | .error e => .ret default (some e)
    | .ok c =>
      match c.StackGet stack.ID with
      | (_, some e) => .ret default (some e)
      | (ds, none) =>
        if ds.hasAccessControl then .ret ds.ResourceControl none
        else .ret default (some ErrAccessControlNotFound)

/-- `GetStackPortainerAccessControl` (lines 271–301): aborts on a
swarm-resolution error unless it is exactly `ErrStackClusterNotFound`. -/
def GetStackPortainerAccessControl (gc : Except GoErr Client) (endpointID : Nat)
    (stackName : String) : GoResult ResourceControl :=
  match GetEndpointSwarmClusterID gc endpointID with
  | .panic => .panic
  | .ret endpointSwarmClusterID errOpt =>
    match errOpt with
    | none => GetStackPortainerAccessControlAfterSwarm gc endpointID stackName endpointSwarmClusterID
    | some e =>
      if e = ErrStackClusterNotFound then
        GetStackPortainerAccessControlAfterSwarm gc endpointID stackName endpointSwarmClusterID
      else .ret default (some e)

/-- A finite, acyclic Go type description as seen through `reflect.Type`:
struct kinds carry `PkgPath`, `Name` and the field list; array and slice
kinds behave identically in `repr` and are both `slice`; every other kind
only exposes its `Name`. -/
inductive GoType where
  | struct (pkgPath : String) (name : String) (fields : List (String × GoType))
  | slice (elem : GoType)
  | scalar (name : String)

/-- `reflect.Type.PkgPath()` for the type descriptions modelled here. -/
def GoType.pkgPathOf : GoType → String
  | .struct pkgPath _ _ => pkgPath
  | .slice _ => ""
  | .scalar _ => ""

/-- `reflect.Type.Name()` for the type descriptions modelled here. -/
def GoType.nameOf : GoType → String
  | .struct _ name _ => name
  | .slice _ => ""
  | .scalar name => name

mutual

/-- `repr` (part_001 lines 205–220): struct kinds render as a brace block of
`beforeMargin+margin+fieldName+" "+recursion` lines (`fmt.Sprintln` appends
the newlines), array/slice kinds prefix `[]`, all other kinds render their
bare name. -/
def repr : GoType → String → String → String
  | .struct _ _ fields, margin, beforeMargin =>
    "\x7b\n" ++ reprFields fields margin beforeMargin ++ (beforeMargin ++ "\x7d")
  | .slice elem, margin, beforeMargin => "[]" ++ repr elem margin beforeMargin
  | .scalar name, _, _ => name

/-- The field loop of `repr` (lines 209–212). -/
def reprFields : List (String × GoType) → String → String → String
  | [], _, _ => ""
  | (fname, ftype) :: rest, margin, beforeMargin =>
    (beforeMargin ++ margin ++ fname ++ " " ++ repr ftype margin (beforeMargin ++ margin) ++ "\n")
      ++ reprFields rest margin beforeMargin

end

/-- `GetFormatHelp` (lines 194–203): embeds `repr` with both indentation
strings fixed to two spaces into the `--format` help text. -/
def GetFormatHelp (t : GoType) : String :=
  "\nFormat:\n  The --format flag accepts a Go template, which is passed a "
    ++ t.pkgPathOf ++ "." ++ t.nameOf ++ " object:\n\n"
    ++ ("  " ++ repr t "  " "  ") ++ "\n"

/-- The specification's description of an entity resolver's scan: the first
element in collection order whose name projection equals the query exactly,
else the kind-specific not-found error with the zero value. -/
def resolveSpec {α : Type} [Inhabited α] (l : List α) (nameOf : α → String)
    (q : String) (notFound : GoErr) : GoResult α :=
  match l.find? (fun x => nameOf x == q) with
  | some x => .ret x none
  | none => .ret default (some notFound)

/-- A client whose every call succeeds with empty data: the base for the
concrete clients below. -/
def stubClient : Client where
  EndpointList := ([], none)
  EndpointGroupList := ([], none)
  StackList := fun _ _ => ([], none)
  UserList := ([], none)
  EndpointDockerInfo := fun _ => ([], none)
  DockerResourceGet := fun _ _ _ => (default, none)
  StackGet := fun _ => (default, none)

/-- Client for the resolver scenario of the specification: two endpoints
named `prod` and `staging`, one group, one stack, one user. -/
def resolverWitnessClient : Client :=
  { stubClient with
    EndpointList := ([⟨1, "prod"⟩, ⟨2, "staging"⟩], none)
    EndpointGroupList := ([⟨1, "g1"⟩], none)
    StackList := fun _ _ => ([⟨5, "web", "", 1⟩], none)
    UserList := ([⟨1, "alice"⟩], none) }

/-- Client holding exactly one endpoint. -/
def singleEndpointClient : Client :=
  { stubClient with EndpointList := ([⟨1, "prod"⟩], none) }

/-- Client whose docker-info document binds `Swarm` to a string scalar. -/
def cexClient : Client :=
  { stubClient with EndpointDockerInfo := fun _ => ([("Swarm", Json.str "x")], none) }

/-- Client whose docker-info document binds `Swarm` to a number scalar. -/
def panicWitnessClient : Client :=
  { stubClient with EndpointDockerInfo := fun _ => ([("Swarm", Json.num 3)], none) }

/-- Client whose docker-info document is empty for endpoint 1 and holds a
full `Swarm.Cluster.ID` chain for every other endpoint. -/
def swarmClient : Client :=
  { stubClient with
    EndpointDockerInfo := fun eid =>
      if eid = 1 then ([], none)
      else ([("Swarm", Json.obj [("Cluster", Json.obj [("ID", Json.str "abc")])])], none) }

/-- Client whose decorated Docker resource carries access control 42 and
whose decorated stack carries the zero access-control sentinel. -/
def acClient : Client :=
  { stubClient with
    StackList := fun _ _ => ([⟨5, "web", "", 1⟩], none)
    DockerResourceGet := fun _ _ _ => (⟨⟨⟨42, "r1", true, false⟩⟩⟩, none)
    StackGet := fun _ => (⟨default, ⟨0, "", false, false⟩⟩, none) }

/-- Client for the stack access-control pipeline: the endpoint is not in a
swarm (empty docker info), the stack list holds `web`, and the decorated
stack carries access control 42. -/
def c8Client : Client :=
  { stubClient with
    StackList := fun _ _ => ([⟨5, "web", "", 1⟩], none)
    StackGet := fun _ => (⟨default, ⟨42, "", false, false⟩⟩, none) }

/-- Client whose docker-info fetch fails with a transport error. -/
def c8ErrClient : Client :=
  { stubClient with EndpointDockerInfo := fun _ => ([], some (GoErr.transport 9)) }

/-- Any Go-style linear scan returning the first name match (else the kind's
not-found error with the zero value) agrees with `resolveSpec`. -/
theorem goScan_eq_resolveSpec {α : Type} [Inhabited α] (nameOf : α → String)
    (notFound : GoErr) (goScan : List α → String → GoResult α)
    (hnil : ∀ n, goScan [] n = .ret default (some notFound))
    (hcons : ∀ x l n, goScan (x :: l) n =
      if nameOf x == n then .ret x none else goScan l n) :
    ∀ l n, goScan l n = resolveSpec l nameOf n notFound := by
  intro l n
  induction l with
  | nil => rw [hnil]; rfl
  | cons x rest ih =>
    rw [hcons]
    cases h : (nameOf x == n) with
    | true => simp [resolveSpec, List.find?_cons, h]
    | false => simp [resolveSpec, List.find?_cons, h, ih]

/-- `findUser` is `List.find?` on the username projection. -/
theorem findUser_eq_find? (l : List User) (n : String) :
    findUser l n = l.find? (fun u => u.Username == n) := by
  induction l with
  | nil => rfl
  | cons u rest ih =>
    rw [findUser, List.find?_cons]
    cases h : (u.Username == n) <;> simp [h, ih]

/-- `GetEndpointFromListByID` returns the first identifier match, else the
endpoint not-found error. -/
theorem GetEndpointFromListByID_eq_find? (l : List Endpoint) (id : Nat) :
    GetEndpointFromListByID l id =
      match l.find? (fun ep => ep.ID == id) with
      | some ep => GoResult.ret ep none
      | none => GoResult.ret default (some ErrEndpointNotFound) := by
  induction l with
  | nil => rfl
  | cons ep rest ih =>
    rw [GetEndpointFromListByID, List.find?_cons]
    cases h : (ep.ID == id) <;> simp [h, ih]

/-- Claim C9: the Type Structure Renderer is deterministic — rendering the
same finite, acyclic type description twice with the same indentation
strings (and building the same format-help text twice) yields byte-identical
output. -/
theorem repr_deterministic :
    ∀ (t : GoType) (margin beforeMargin : String),
      repr t margin beforeMargin = repr t margin beforeMargin ∧
      GetFormatHelp t = GetFormatHelp t :=
  fun _ _ _ => ⟨rfl, rfl⟩

/-- Claim C10: a key present but bound to JSON null makes `selectValue`
return the value-not-found error (the theorem applies to the mapping at any
recursion depth, hence at any position of the path) without attempting the
nested-mapping descent, so a null-valued key never produces the
type-assertion panic. -/
theorem selectValue_null_key_not_found (m : List (String × Json)) (k : String)
    (rest : List String) (h : m.lookup k = some Json.null) :
    selectValue m (k :: rest) = .err valueNotFoundError ∧
    selectValue m (k :: rest) ≠ .panic := by
  have hv : goIndex m k = Json.null := by simp [goIndex, h]
  have h1 : selectValue m (k :: rest) = .err valueNotFoundError := by
    simp [selectValue, hv, Json.isNull]
  refine ⟨h1, ?_⟩
  rw [h1]
  intro hc
  exact SelectResult.noConfusion hc

/-- Witness for C10 at a concrete mapping and a two-key path whose first key
is bound to null. -/
theorem selectValue_null_key_not_found_witness :
    selectValue [("cfg", Json.null)] ["cfg", "inner"] = .err valueNotFoundError ∧
    selectValue [("cfg", Json.null)] ["cfg", "inner"] ≠ .panic :=
  selectValue_null_key_not_found [("cfg", Json.null)] "cfg" ["inner"] rfl

/-- Claim C2 (code bug): when `UserList` fails with a transport error,
`GetUserByName` does not propagate it — the missing error check lets the
scan of the empty list overwrite the transport error with `ErrUserNotFound`.
Every sibling resolver (here `GetEndpointByName`) does propagate the same
transport error unchanged. -/
theorem GetUserByName_swallows_transport_error :
    GetUserByName
        (.ok { stubClient with UserList := ([], some (GoErr.transport 7)) }) "alice"
      = .ret default (some ErrUserNotFound) ∧
    ErrUserNotFound ≠ GoErr.transport 7 ∧
    GetEndpointByName
        (.ok { stubClient with EndpointList := ([], some (GoErr.transport 7)) }) "alice"
      = .ret default (some (GoErr.transport 7)) :=
  ⟨rfl, by decide, rfl⟩

/-- Claim C5: `GetDefaultEndpoint` on a successfully fetched collection —
empty collection gives the no-endpoints error, a singleton gives its element,
two or more give the several-endpoints error; the two cardinality errors are
distinct values and the error returns carry only the zero endpoint. -/
theorem GetDefaultEndpoint_cardinality (c : Client) (eps : List Endpoint)
    (h : c.EndpointList = (eps, none)) :
    (eps = [] → GetDefaultEndpoint (.ok c) = .ret default (some ErrNoEndpointsAvailable)) ∧
    (∀ ep, eps = [ep] → GetDefaultEndpoint (.ok c) = .ret ep none) ∧
    (2 ≤ eps.length →
      GetDefaultEndpoint (.ok c) = .ret default (some ErrSeveralEndpointsAvailable)) ∧
    ErrNoEndpointsAvailable ≠ ErrSeveralEndpointsAvailable := by
  refine ⟨?_, ?_, ?_, by decide⟩
  · rintro rfl
    simp [GetDefaultEndpoint, h]
  · rintro ep rfl
    simp [GetDefaultEndpoint, h]
  · intro hlen
    cases eps with
    | nil => simp at hlen
    | cons e1 tail =>
      cases tail with
      | nil => simp at hlen
      | cons e2 tail2 => simp [GetDefaultEndpoint, h]

/-- Witness for C5 at a concrete single-endpoint client. -/
theorem GetDefaultEndpoint_cardinality_witness :
    GetDefaultEndpoint (.ok singleEndpointClient) = .ret ⟨1, "prod"⟩ none :=
  (GetDefaultEndpoint_cardinality singleEndpointClient [⟨1, "prod"⟩] rfl).2.1 ⟨1, "prod"⟩ rfl

/-- Claim C4: every entity resolver (endpoint, endpoint group, stack, user,
and the list-based lookups) returns the first element in collection order
whose name equals the query under exact string equality — `resolveSpec`
written from the specification — with the kind-specific error exactly when
no element matches (`GetEndpointFromListByID` analogously on identifiers);
the four kind errors are pairwise distinct. -/
theorem resolvers_first_match (c : Client) (name : String)
    (eps : List Endpoint) (egs : List EndpointGroup) (stks : List Stack)
    (usrs : List User) (sid : String) (eid : Nat) (lst : List Endpoint) (id : Nat)
    (h1 : c.EndpointList = (eps, none))
    (h2 : c.EndpointGroupList = (egs, none))
    (h3 : c.StackList sid eid = (stks, none))
    (h4 : c.UserList = (usrs, none)) :
    GetEndpointByName (.ok c) name = resolveSpec eps Endpoint.Name name ErrEndpointNotFound ∧
    GetEndpointGroupByName (.ok c) name =
      resolveSpec egs EndpointGroup.Name name ErrEndpointGroupNotFound ∧
    GetStackByName (.ok c) name sid eid = resolveSpec stks Stack.Name name ErrStackNotFound ∧
    GetUserByName (.ok c) name = resolveSpec usrs User.Username name ErrUserNotFound ∧
    GetEndpointFromListByName lst name =
      resolveSpec lst Endpoint.Name name ErrEndpointNotFound ∧
    (GetEndpointFromListByID lst id =
      match lst.find? (fun ep => ep.ID == id) with
      | some ep => GoResult.ret ep none
      | none => GoResult.ret default (some ErrEndpointNotFound)) ∧
    (ErrEndpointNotFound ≠ ErrEndpointGroupNotFound ∧
     ErrEndpointNotFound ≠ ErrStackNotFound ∧
     ErrEndpointNotFound ≠ ErrUserNotFound ∧
     ErrEndpointGroupNotFound ≠ ErrStackNotFound ∧
     ErrEndpointGroupNotFound ≠ ErrUserNotFound ∧
     ErrStackNotFound ≠ ErrUserNotFound) := by
  have hep : ∀ l n, findEndpoint l n = resolveSpec l Endpoint.Name n ErrEndpointNotFound :=
    goScan_eq_resolveSpec Endpoint.Name ErrEndpointNotFound findEndpoint
      (fun _ => rfl) (fun _ _ _ => rfl)
  have heg : ∀ l n, findEndpointGroup l n =
      resolveSpec l EndpointGroup.Name n ErrEndpointGroupNotFound :=
    goScan_eq_resolveSpec EndpointGroup.Name ErrEndpointGroupNotFound findEndpointGroup
      (fun _ => rfl) (fun _ _ _ => rfl)
  have hst : ∀ l n, findStack l n = resolveSpec l Stack.Name n ErrStackNotFound :=
    goScan_eq_resolveSpec Stack.Name ErrStackNotFound findStack
      (fun _ => rfl) (fun _ _ _ => rfl)
  have hln : ∀ l n, GetEndpointFromListByName l n =
      resolveSpec l Endpoint.Name n ErrEndpointNotFound :=
    goScan_eq_resolveSpec Endpoint.Name ErrEndpointNotFound GetEndpointFromListByName
      (fun _ => rfl) (fun _ _ _ => rfl)
  refine ⟨?_, ?_, ?_, ?_, hln lst name, GetEndpointFromListByID_eq_find? lst id, by decide⟩
  · simp [GetEndpointByName, h1, hep]
  · simp [GetEndpointGroupByName, h2, heg]
  · simp [GetStackByName, h3, hst]
  · simp only [GetUserByName, h4]
    rw [findUser_eq_find?]
    unfold resolveSpec
    cases hf : usrs.find? (fun u => u.Username == name) <;> simp [hf]

/-- Witness for C4 at the specification's scenario: endpoints `prod` and
`staging`, query `staging` resolves to endpoint 2. -/
theorem resolvers_first_match_witness :
    GetEndpointByName (.ok resolverWitnessClient) "staging" = .ret ⟨2, "staging"⟩ none :=
  ((resolvers_first_match resolverWitnessClient "staging"
      [⟨1, "prod"⟩, ⟨2, "staging"⟩] [⟨1, "g1"⟩] [⟨5, "web", "", 1⟩] [⟨1, "alice"⟩]
      "" 1 [] 1 rfl rfl rfl rfl).1).trans rfl

/-- Claim C7: `GetEndpointSwarmClusterID` translates the selector's
value-not-found error into `ErrStackClusterNotFound` (a distinct value from
the raw selector error), returns the extracted string unchanged on success,
and the branch chain passes any other selector error through unchanged. -/
theorem GetEndpointSwarmClusterID_translation (c : Client) (eid : Nat)
    (doc : List (String × Json)) (s : String) (e : GoErr)
    (hinfo : c.EndpointDockerInfo eid = (doc, none)) :
    (selectValue doc ["Swarm", "Cluster", "ID"] = .err valueNotFoundError →
      GetEndpointSwarmClusterID (.ok c) eid = .ret "" (some ErrStackClusterNotFound)) ∧
    (selectValue doc ["Swarm", "Cluster", "ID"] = .ok (.str s) →
      GetEndpointSwarmClusterID (.ok c) eid = .ret s none) ∧
    (e ≠ valueNotFoundError → translateSelection (.err e) = .ret "" (some e)) ∧
    ErrStackClusterNotFound ≠ valueNotFoundError := by
  refine ⟨?_, ?_, ?_, by decide⟩
  · intro hsel
    simp [GetEndpointSwarmClusterID, hinfo, hsel, translateSelection]
  · intro hsel
    simp [GetEndpointSwarmClusterID, hinfo, hsel, translateSelection]
  · intro hne
    simp [translateSelection, hne]

/-- Witness for C7: an empty docker-info document yields the cluster-not-found
translation, a full `Swarm.Cluster.ID` chain yields the extracted string, and
a transport error passes through the branch chain unchanged. -/
theorem GetEndpointSwarmClusterID_translation_witness :
    GetEndpointSwarmClusterID (.ok swarmClient) 1 = .ret "" (some ErrStackClusterNotFound) ∧
    GetEndpointSwarmClusterID (.ok swarmClient) 2 = .ret "abc" none ∧
    translateSelection (.err (GoErr.transport 3)) = .ret "" (some (GoErr.transport 3)) := by
  refine ⟨?_, ?_, ?_⟩
  · exact (GetEndpointSwarmClusterID_translation swarmClient 1 [] ""
      (GoErr.transport 3) rfl).1 rfl
  · exact (GetEndpointSwarmClusterID_translation swarmClient 2
      [("Swarm", Json.obj [("Cluster", Json.obj [("ID", Json.str "abc")])])] "abc"
      (GoErr.transport 3) rfl).2.1 rfl
  · exact (GetEndpointSwarmClusterID_translation swarmClient 1 [] ""
      (GoErr.transport 3) rfl).2.2.1 (by decide)

/-- Claim C6: for every decoded decorated resource of either shape, the
access-control decorator reports `ErrAccessControlNotFound` exactly when the
AccessControl identifier is zero — regardless of every other field, which the
statement quantifies over — and returns the AccessControl record unmodified
when the identifier is non-zero. -/
theorem accessControl_zero_sentinel (c : Client) (eid : Nat)
    (rid rty sname sid : String) (pddr : portainerDecoratedDockerResource)
    (stk : Stack) (rest : List Stack) (ds : decoratedStack)
    (hres : c.DockerResourceGet eid rty rid = (pddr, none))
    (hsl : c.StackList sid eid = (stk :: rest, none))
    (hsn : stk.Name = sname)
    (hsg : c.StackGet stk.ID = (ds, none)) :
    (pddr.Portainer.ResourceControl.ID = 0 →
      GetDockerResourcePortainerAccessControl (.ok c) eid rid rty =
        .ret default (some ErrAccessControlNotFound)) ∧
    (pddr.Portainer.ResourceControl.ID ≠ 0 →
      GetDockerResourcePortainerAccessControl (.ok c) eid rid rty =
        .ret pddr.Portainer.ResourceControl none) ∧
    (ds.ResourceControl.ID = 0 →
      GetStackPortainerAccessControlAfterSwarm (.ok c) eid sname sid =
        .ret default (some ErrAccessControlNotFound)) ∧
    (ds.ResourceControl.ID ≠ 0 →
      GetStackPortainerAccessControlAfterSwarm (.ok c) eid sname sid =
        .ret ds.ResourceControl none) := by
  have hstack : GetStackByName (.ok c) sname sid eid = .ret stk none := by
    simp [GetStackByName, hsl, findStack, hsn]
  refine ⟨?_, ?_, ?_, ?_⟩
  · intro h0
    simp [GetDockerResourcePortainerAccessControl, hres,
      portainerDecoratedDockerResource.hasAccessControl, h0]
  · intro h0
    simp [GetDockerResourcePortainerAccessControl, hres,
      portainerDecoratedDockerResource.hasAccessControl, h0]
  · intro h0
    simp [GetStackPortainerAccessControlAfterSwarm, hstack, hsg,
      decoratedStack.hasAccessControl, h0]
  · intro h0
    simp [GetStackPortainerAccessControlAfterSwarm, hstack, hsg,
      decoratedStack.hasAccessControl, h0]

/-- Witness for C6: a decorated Docker resource with access control 42 is
returned intact; a decorated stack with the zero sentinel reports the
access-control-not-found error. -/
theorem accessControl_zero_sentinel_witness :
    GetDockerResourcePortainerAccessControl (.ok acClient) 1 "r1" "container" =
      .ret ⟨42, "r1", true, false⟩ none ∧
    GetStackPortainerAccessControlAfterSwarm (.ok acClient) 1 "web" "" =
      .ret default (some ErrAccessControlNotFound) := by
  have h := accessControl_zero_sentinel acClient 1 "r1" "container" "web" ""
      ⟨⟨⟨42, "r1", true, false⟩⟩⟩ ⟨5, "web", "", 1⟩ [] ⟨default, ⟨0, "", false, false⟩⟩
      rfl rfl rfl rfl
  exact ⟨h.2.1 (by decide), h.2.2.1 rfl⟩

/-- Claim C8: `GetStackPortainerAccessControl` treats the
`ErrStackClusterNotFound` signal as "no cluster filter" and proceeds with the
stack resolution, aborts on every other swarm-resolution error, and then
applies the identical zero-identifier sentinel check the Docker-resource
variant uses. -/
theorem GetStackPortainerAccessControl_tolerates_clusterNotFound
    (gc : Except GoErr Client) (c : Client) (eid : Nat) (sname sid : String)
    (e : GoErr) (stk : Stack) (rest : List Stack) (ds : decoratedStack) :
    (GetEndpointSwarmClusterID gc eid = .ret sid (some ErrStackClusterNotFound) →
      GetStackPortainerAccessControl gc eid sname =
        GetStackPortainerAccessControlAfterSwarm gc eid sname sid) ∧
    (e ≠ ErrStackClusterNotFound → GetEndpointSwarmClusterID gc eid = .ret sid (some e) →
      GetStackPortainerAccessControl gc eid sname = .ret default (some e)) ∧
    (c.StackList sid eid = (stk :: rest, none) → stk.Name = sname →
      c.StackGet stk.ID = (ds, none) →
      GetStackPortainerAccessControlAfterSwarm (.ok c) eid sname sid =
        if ds.hasAccessControl then .ret ds.ResourceControl none
        else .ret default (some ErrAccessControlNotFound)) ∧
    (∀ r : ResourceControl,
      portainerDecoratedDockerResource.hasAccessControl ⟨⟨r⟩⟩ =
        decoratedStack.hasAccessControl ⟨default, r⟩) := by
  refine ⟨?_, ?_, ?_, fun _ => rfl⟩
  · intro hsw
    simp [GetStackPortainerAccessControl, hsw]
  · intro hne hsw
    simp [GetStackPortainerAccessControl, hsw, hne]
  · intro hsl hsn hsg
    have hstack : GetStackByName (.ok c) sname sid eid = .ret stk none := by
      simp [GetStackByName, hsl, findStack, hsn]
    simp [GetStackPortainerAccessControlAfterSwarm, hstack, hsg]

/-- Witness for C8: with an endpoint outside any swarm the pipeline proceeds
past the tolerated `ErrStackClusterNotFound`, resolves stack `web` and
returns its access control 42; with a failing docker-info fetch the transport
error aborts the pipeline unchanged. -/
theorem GetStackPortainerAccessControl_tolerates_clusterNotFound_witness :
    GetStackPortainerAccessControl (.ok c8Client) 1 "web" =
      GetStackPortainerAccessControlAfterSwarm (.ok c8Client) 1 "web" "" ∧
    GetStackPortainerAccessControlAfterSwarm (.ok c8Client) 1 "web" "" =
      .ret ⟨42, "", false, false⟩ none ∧
    GetStackPortainerAccessControl (.ok c8ErrClient) 1 "web" =
      .ret default (some (GoErr.transport 9)) := by
  have h := GetStackPortainerAccessControl_tolerates_clusterNotFound (.ok c8Client)
      c8Client 1 "web" "" (GoErr.transport 9) ⟨5, "web", "", 1⟩ []
      ⟨default, ⟨42, "", false, false⟩⟩
  have h2 := GetStackPortainerAccessControl_tolerates_clusterNotFound (.ok c8ErrClient)
      c8ErrClient 1 "web" "" (GoErr.transport 9) ⟨5, "web", "", 1⟩ []
      ⟨default, ⟨42, "", false, false⟩⟩
  refine ⟨h.1 rfl, ?_, h2.2.1 (by decide) rfl⟩
  have h3 := h.2.2.1 rfl rfl rfl
  rw [h3]
  rfl

/-- Counterexample to C1 as stated: with `Swarm` bound to a non-mapping
scalar, `selectValue` returns no error value at all — the unchecked type
assertion panics — and `GetEndpointSwarmClusterID` on such a document panics
rather than signalling any error the caller could branch on. -/
theorem selectValue_scalar_intermediate_cex :
    selectValue [("Swarm", Json.str "x")] ["Swarm", "Cluster", "ID"] = .panic ∧
    (selectValue [("Swarm", Json.str "x")] ["Swarm", "Cluster", "ID"]).isErr = false ∧
    GetEndpointSwarmClusterID (.ok cexClient) 1 = .panic ∧
    (GetEndpointSwarmClusterID (.ok cexClient) 1).isErr = false :=
  ⟨rfl, rfl, rfl, rfl⟩

/-- Claim C1 (amended): when an intermediate value along the path is present
but is neither null nor a nested mapping, `selectValue` does not return the
value-not-found error — it aborts with the type-assertion panic, an outcome
distinct from the not-found error but not an error value; in
`GetEndpointSwarmClusterID` a document whose `Swarm` key holds such a value
makes the whole call panic instead of returning `ErrStackClusterNotFound`. -/
theorem selectValue_scalar_intermediate_panics (m : List (String × Json)) (k : String)
    (p : List String) (c : Client) (eid : Nat) (hp : p ≠ [])
    (hnull : (goIndex m k).isNull = false) (hobj : (goIndex m k).isObj = false) :
    selectValue m (k :: p) = .panic ∧
    (selectValue m (k :: p)).isErr = false ∧
    (c.EndpointDockerInfo eid = (m, none) → k = "Swarm" → p = ["Cluster", "ID"] →
      GetEndpointSwarmClusterID (.ok c) eid = .panic) := by
  obtain ⟨q, rest, rfl⟩ : ∃ q rest, p = q :: rest := by
    cases p with
    | nil => exact absurd rfl hp
    | cons q rest => exact ⟨q, rest, rfl⟩
  have h1 : selectValue m (k :: q :: rest) = .panic := by
    cases hgv : goIndex m k with
    | null => rw [hgv] at hnull; simp [Json.isNull] at hnull
    | obj o => rw [hgv] at hobj; simp [Json.isObj] at hobj
    | bool b => simp [selectValue, hgv, Json.isNull]
    | num n => simp [selectValue, hgv, Json.isNull]
    | str s => simp [selectValue, hgv, Json.isNull]
    | arr a => simp [selectValue, hgv, Json.isNull]
  refine ⟨h1, by rw [h1]; rfl, ?_⟩
  intro hinfo hk hpeq
  subst hk
  rw [hpeq] at h1
  simp [GetEndpointSwarmClusterID, hinfo, h1, translateSelection]

/-- Witness for the amended C1 at a document binding `Swarm` to the number
3. -/
theorem selectValue_scalar_intermediate_panics_witness :
    selectValue [("Swarm", Json.num 3)] ["Swarm", "Cluster", "ID"] = .panic ∧
    GetEndpointSwarmClusterID (.ok panicWitnessClient) 1 = .panic := by
  have h := selectValue_scalar_intermediate_panics [("Swarm", Json.num 3)] "Swarm"
      ["Cluster", "ID"] panicWitnessClient 1 (by simp) rfl rfl
  exact ⟨h.1, h.2.2 rfl rfl rfl⟩

/-- Counterexample to C3 as stated: in `{a: null}` with path `[a]` every
traversed intermediate is a mapping and no key along the path is absent —
the manual walk reaches the null value — yet `selectValue` reports the
value-not-found error. -/
theorem selectValue_null_leaf_cex :
    intermediatesAreMaps [("a", Json.null)] ["a"] = true ∧
    someKeyAbsent [("a", Json.null)] ["a"] = false ∧
    manualDescend [("a", Json.null)] ["a"] = some Json.null ∧
    selectValue [("a", Json.null)] ["a"] = .err valueNotFoundError :=
  ⟨rfl, rfl, rfl, rfl⟩

/-- Claim C3 (amended): on a non-empty path whose traversed intermediates
are all nested mappings, `selectValue` returns the value-not-found error if
and only if some key along the path is absent or bound to JSON null (Go's
nil test conflates the two), and otherwise returns exactly the value the
manual one-key-at-a-time descent reaches. -/
theorem selectValue_manual_walk (m : List (String × Json)) (p : List String)
    (hp : p ≠ []) (hm : intermediatesAreMaps m p = true) :
    (selectValue m p = .err valueNotFoundError ↔ someKeyAbsentOrNull m p = true) ∧
    (someKeyAbsentOrNull m p = false →
      ∃ v, manualDescend m p = some v ∧ selectValue m p = .ok v) := by
  induction p generalizing m with
  | nil => exact absurd rfl hp
  | cons k rest ih =>
    cases rest with
    | nil =>
      have habs : someKeyAbsentOrNull m [k] = (goIndex m k).isNull := rfl
      have hsel : selectValue m [k] =
          if (goIndex m k).isNull then .err valueNotFoundError else .ok (goIndex m k) := rfl
      constructor
      · rw [hsel, habs]
        cases hn : (goIndex m k).isNull with
        | true => simp
        | false => simp
      · intro h0
        rw [habs] at h0
        refine ⟨goIndex m k, ?_, ?_⟩
        · cases hlk : m.lookup k with
          | none =>
            rw [show goIndex m k = Json.null from by simp [goIndex, hlk]] at h0
            simp [Json.isNull] at h0
          | some v => simp [manualDescend, goIndex, hlk]
        · rw [hsel, h0]
          rfl
    | cons k2 rest2 =>
      cases hlk : m.lookup k with
      | none =>
        have hv : goIndex m k = Json.null := by simp [goIndex, hlk]
        constructor
        · constructor
          · intro _
            simp [someKeyAbsentOrNull, hv]
          · intro _
            simp [selectValue, hv, Json.isNull]
        · intro h0
          exfalso
          simp [someKeyAbsentOrNull, hv] at h0
      | some v =>
        have hv : goIndex m k = v := by simp [goIndex, hlk]
        cases v with
        | obj m2 =>
          simp only [intermediatesAreMaps, hlk] at hm
          have hsel : selectValue m (k :: k2 :: rest2) = selectValue m2 (k2 :: rest2) := by
            simp [selectValue, hv, Json.isNull]
          have habs : someKeyAbsentOrNull m (k :: k2 :: rest2) =
              someKeyAbsentOrNull m2 (k2 :: rest2) := by
            simp [someKeyAbsentOrNull, hv]
          have hmd : manualDescend m (k :: k2 :: rest2) = manualDescend m2 (k2 :: rest2) := by
            simp [manualDescend, hlk]
          rw [hsel, habs, hmd]
          exact ih m2 (by simp) hm
        | null => simp [intermediatesAreMaps, hlk] at hm
        | bool b => simp [intermediatesAreMaps, hlk] at hm
        | num n => simp [intermediatesAreMaps, hlk] at hm
        | str s => simp [intermediatesAreMaps, hlk] at hm
        | arr a => simp [intermediatesAreMaps, hlk] at hm

/-- Witness for the amended C3 at a concrete two-level mapping. -/
theorem selectValue_manual_walk_witness :
    (selectValue [("x", Json.obj [("y", Json.str "v")])] ["x", "y"] =
        .err valueNotFoundError ↔
      someKeyAbsentOrNull [("x", Json.obj [("y", Json.str "v")])] ["x", "y"] = true) ∧
    (someKeyAbsentOrNull [("x", Json.obj [("y", Json.str "v")])] ["x", "y"] = false →
      ∃ v, manualDescend [("x", Json.obj [("y", Json.str "v")])] ["x", "y"] = some v ∧
        selectValue [("x", Json.obj [("y", Json.str "v")])] ["x", "y"] = .ok v) :=
  selectValue_manual_walk [("x", Json.obj [("y", Json.str "v")])] ["x", "y"]
    (by simp) rfl

end common
